import Mathlib

/-!
Shallow embedding of the two CSV-to-PostgreSQL loading scripts
(`optimised_insert_peaple_data.py` for people, `insert_company_with_csv.py`
for companies).  Pure row transformations become Lean functions on
`String`/`List Char`; the database table becomes an explicit list of rows,
and the `ON CONFLICT` clauses become explicit conflict predicates following
PostgreSQL unique-index semantics (NULLs are distinct).  Storage-layer
failures are modelled by a boolean oracle indexed by chunk number.
-/

deriving instance DecidableEq for Except

namespace InsertData

/-! ## String utilities mirroring the Python primitives used by the scripts -/

/-- Whitespace characters recognized by Python `str.strip` / regex `\s`
(space, tab, newline, carriage return, vertical tab, form feed). -/
def isSpaceChar (c : Char) : Bool :=
  c = ' ' || c = '\t' || c = '\n' || c = '\r' || c = Char.ofNat 11 || c = Char.ofNat 12

/-- Python `str.strip()` on a character list. -/
def stripList (l : List Char) : List Char :=
  ((l.dropWhile isSpaceChar).reverse.dropWhile isSpaceChar).reverse

/-- Python `str.strip()`. -/
def stripS (s : String) : String :=
  String.mk (stripList s.data)

/-- Python `str.lower()` on a character list (ASCII case folding). -/
def lowerL (l : List Char) : List Char :=
  l.map Char.toLower

/-- Python `str.lower()` / SQL `LOWER` (ASCII case folding). -/
def lowerS (s : String) : String :=
  String.mk (lowerL s.data)

/-- Python `str.replace(',', '')`. -/
def removeCommas (l : List Char) : List Char :=
  l.filter (fun c => c ≠ ',')

/-- Python `str.isdigit()`: nonempty and all digits. -/
def isdigitL (l : List Char) : Bool :=
  !l.isEmpty && l.all Char.isDigit

/-- Python `int(...)` on a digit string. -/
def digitsToNat (l : List Char) : Nat :=
  l.foldl (fun n c => 10 * n + (c.toNat - ('0').toNat)) 0

/-- Python `re.sub(r'\s+', '', s)`: drop every whitespace character. -/
def removeWhitespace (l : List Char) : List Char :=
  l.filter (fun c => !isSpaceChar c)

/-- Worker for `stripEmployees`; the fuel argument (instantiated with the
list length, which every step strictly decreases) keeps the recursion
structural so it reduces inside the kernel. -/
def stripEmployeesAux : Nat → List Char → List Char
  | _, [] => []
  | 0, l => l
  | fuel + 1, c :: rest =>
    if ("employees".data).isPrefixOf (c :: rest) then
      stripEmployeesAux fuel (rest.drop 8)
    else if ("employee".data).isPrefixOf (c :: rest) then
      stripEmployeesAux fuel (rest.drop 7)
    else
      c :: stripEmployeesAux fuel rest

/-- Python `re.sub(r'employees?', '', s)`: delete every leftmost,
non-overlapping occurrence of the word, greedily preferring the plural. -/
def stripEmployees (l : List Char) : List Char :=
  stripEmployeesAux l.length l

/-- First match of Python `re.findall(r'\d+', s)`: the first maximal run of
digit characters, if any. -/
def firstDigitRun (l : List Char) : Option (List Char) :=
  match l with
  | [] => none
  | c :: rest =>
    if c.isDigit then some (c :: rest.takeWhile Char.isDigit)
    else firstDigitRun rest

/-- Python substring test `needle in hay`. -/
def containsSub (needle : List Char) (hay : List Char) : Bool :=
  match hay with
  | [] => needle.isEmpty
  | _ :: rest => needle.isPrefixOf hay || containsSub needle rest

/-- Python `any(x in hay for x in kws)`. -/
def containsAny (hay : List Char) (kws : List String) : Bool :=
  kws.any (fun k => containsSub k.data hay)

/-- Python `str.rstrip('/')`. -/
def rstripSlash (l : List Char) : List Char :=
  (l.reverse.dropWhile (fun c => c = '/')).reverse

/-- Python `str.split(sep)` for a one-character separator: always returns
at least one (possibly empty) piece, and empty pieces between adjacent
separators are kept. -/
def splitCharList (sep : Char) : List Char → List (List Char)
  | [] => [[]]
  | c :: rest =>
    let ps := splitCharList sep rest
    if c = sep then [] :: ps
    else (c :: ps.headD []) :: ps.tail

/-- `s.strip() or None` idiom: empty strings become null. -/
def orNone (s : String) : Option String :=
  if s = "" then none else some s

/-- A raw CSV row (`csv.DictReader` output): a partial map from column
names to cell strings. -/
def Raw : Type := String → Option String

/-- Python `row.get(k, '')`. -/
def rget (r : Raw) (k : String) : String :=
  (r k).getD ""

/-- A raw row with every column absent. -/
def emptyRaw : Raw := fun _ => none

/-! ## `normalize_size` (people script, lines 69-117) -/

/-- Numeric-path bucketing of an employee count
(`optimised_insert_peaple_data.py` lines 77-84). -/
def numericBucket (count : Nat) : String :=
  if count ≥ 10001 then "10,001+ employees"
  else if count ≥ 5001 then "5,001-10,000 employees"
  else if count ≥ 1001 then "1,001-5,000 employees"
  else if count ≥ 501 then "501-1,000 employees"
  else if count ≥ 201 then "201-500 employees"
  else if count ≥ 51 then "51-200 employees"
  else if count ≥ 11 then "11-50 employees"
  else "1-10 employees"

/-- Text-fallback bucketing of the first integer extracted from a free-text
size descriptor (`optimised_insert_peaple_data.py` lines 107-115). -/
def fallbackBucket (lower : Nat) : String :=
  if lower ≥ 10000 then "10,001+ employees"
  else if lower ≥ 5000 then "5,001-10,000 employees"
  else if lower ≥ 1000 then "1,001-5,000 employees"
  else if lower ≥ 500 then "501-1,000 employees"
  else if lower ≥ 200 then "201-500 employees"
  else if lower ≥ 50 then "51-200 employees"
  else if lower ≥ 10 then "11-50 employees"
  else "1-10 employees"

/-- Canonical-form lookup table (`size_mapping`, lines 89-97). -/
def sizeMapping : List (String × String) :=
  [("10000+", "10,001+ employees"), ("10001+", "10,001+ employees"),
   ("5000-10000", "5,001-10,000 employees"), ("5001-10000", "5,001-10,000 employees"),
   ("1000-5000", "1,001-5,000 employees"), ("1001-5000", "1,001-5,000 employees"),
   ("500-1000", "501-1,000 employees"), ("501-1000", "501-1,000 employees"),
   ("250-500", "201-500 employees"), ("201-500", "201-500 employees"),
   ("100-250", "51-200 employees"), ("51-200", "51-200 employees"),
   ("11-50", "11-50 employees"), ("1-10", "1-10 employees"), ("1-100", "51-200 employees")]

/-- `count_str` after comma removal and stripping (line 74). -/
def countClean (ecs : String) : List Char :=
  stripList (removeCommas ecs.data)

/-- The guard `count_str and count_str.isdigit()` (line 75). -/
def numericTaken (ecs : String) : Bool :=
  !(countClean ecs).isEmpty && isdigitL (countClean ecs)

/-- `size_str = employee_size_str.lower().strip() if employee_size_str else ""`
(line 88). -/
def sizeStrOf (ess : String) : List Char :=
  if ess = "" then [] else stripList (lowerL ess.data)

/-- `clean_size` after whitespace removal and deleting `employees?`
(lines 99-100). -/
def cleanSizeOf (ess : String) : String :=
  String.mk (stripEmployees (removeWhitespace (sizeStrOf ess)))

/-- `normalize_size` (lines 69-117): numeric employee count takes precedence;
otherwise exact lookup of the cleaned descriptor; otherwise bucket the first
extracted integer; otherwise null. -/
def normalize_size (ecs ess : String) : Option String :=
  if ecs = "" ∧ ess = "" then none
  else if numericTaken ecs then some (numericBucket (digitsToNat (countClean ecs)))
  else
    match sizeMapping.lookup (cleanSizeOf ess) with
    | some v => some v
    | none =>
      match firstDigitRun (sizeStrOf ess) with
      | some ds => some (fallbackBucket (digitsToNat ds))
      | none => none

/-- Rank of the eight canonical size labels in ascending bucket order. -/
def bucketRank (s : String) : Nat :=
  if s = "1-10 employees" then 0
  else if s = "11-50 employees" then 1
  else if s = "51-200 employees" then 2
  else if s = "201-500 employees" then 3
  else if s = "501-1,000 employees" then 4
  else if s = "1,001-5,000 employees" then 5
  else if s = "5,001-10,000 employees" then 6
  else if s = "10,001+ employees" then 7
  else 8

/-! ## `infer_seniority_level` (people script, lines 120-137) -/

def csuiteKeywords : List String :=
  ["ceo", "cfo", "cto", "coo", "cmo", "chief", "president", "founder"]

def vpKeywordsA : List String :=
  ["evp", "svp", "executive vice president", "senior vice president"]

def vpKeywordsB : List String :=
  ["vice president", " vp", "vp "]

def directorKeywords : List String :=
  ["director", "head of"]

def seniorKeywords : List String :=
  ["senior", "sr.", "lead", "principal"]

/-- `infer_seniority_level` (lines 120-137): null/empty title yields null;
otherwise case-insensitive substring checks in priority order with
Individual Contributor as the default. -/
def infer_seniority_level : Option String → Option String
  | none => none
  | some title =>
    if title = "" then none
    else if containsAny (lowerL title.data) csuiteKeywords then some "C-Suite"
    else if containsAny (lowerL title.data) vpKeywordsA then some "VP"
    else if containsAny (lowerL title.data) vpKeywordsB then some "VP"
    else if containsAny (lowerL title.data) directorKeywords then some "Director"
    else if containsSub ("manager".data) (lowerL title.data) then some "Manager"
    else if containsAny (lowerL title.data) seniorKeywords then some "Senior"
    else some "Individual Contributor"

/-! ## LinkedIn identifier extraction (people script, lines 159-167) -/

/-- `linkedin_url.rstrip('/').split('/')`. -/
def linkedinParts (url : String) : List String :=
  (splitCharList '/' (rstripSlash url.data)).map String.mk

/-- The segment after the first occurrence of the marker segment, if any
(`parts.index('in')` followed by the bounds check on `idx + 1`). -/
def segAfterIn : List String → Option String
  | [] => none
  | p :: rest => if p = "in" then rest.head? else segAfterIn rest

/-- LinkedIn id extraction (lines 160-167): null for an empty URL, else the
segment following the first `in` path segment, if one follows it. -/
def extractLinkedinId (url : String) : Option String :=
  if url = "" then none else segAfterIn (linkedinParts url)

/-! ## People pipeline: canonical records (people script, lines 140-253)

A `PersonRow` is one row of the `people_data` table, one field per entry of
`INSERT_COLUMNS` (the auto-generated `id` column is excluded by the script).
Nullable values are `Option`; the staged CSV file round-trips null as an
empty cell, so the staging step is modelled as the identity on rows.  The
float constant `popularity_index = 5.0` is carried as its literal text. -/

structure PersonRow where
  company_name : Option String
  name : Option String
  title : Option String
  linkedin_id : Option String
  location : Option String
  department : Option String
  size : Option String
  company_id : Option String
  seniority_level : Option String
  years_experience : Option Int
  skills : Option String
  education : Option String
  profile_photo_url : Option String
  email_address : Option String
  phone_number : Option String
  last_updated_at : Option String
  confidence_score : Option Int
  intent_signals : Option String
  company_funding_stage : Option String
  job_change_date : Option String
  technologies : Option String
  enrichment_status : Option String
  last_enriched_at : Option String
  work_email_enriched : Option String
  linkedin_url_enriched : Option String
  social_profiles_enriched : Option String
  person_highlights_enriched : Option String
  company_domain_enriched : Option String
  user_id : Option String
  created_at : Option String
  updated_at : Option String
  popularity_index : Option String
deriving DecidableEq

/-- `process_csv_row` (lines 140-219): normalize one raw CSV row into a
`people_data` row.  `now` stands for `datetime.now().isoformat()`. -/
def process_csv_row (now : String) (r : Raw) : PersonRow :=
  let first_name := stripS (rget r "First Name")
  let last_name := stripS (rget r "Last Name")
  let full_name := stripS (first_name ++ " " ++ last_name)
  let city := stripS (rget r "City")
  let state := stripS (rget r "State")
  let country := stripS (rget r "Country")
  let locParts := [city, state, country].filter (fun p => p ≠ "")
  let location := if locParts = [] then none
                  else some (String.intercalate ", " locParts)
  let size := normalize_size (rget r "# Employees") (rget r "Employee size")
  let linkedin_url := stripS (rget r "Person Linkedin Url")
  let linkedin_id := extractLinkedinId linkedin_url
  let title := orNone (stripS (rget r "Title"))
  let dept_str := stripS (rget r "Departments")
  let department := if dept_str = "" then none
                    else some (stripS (String.mk ((splitCharList ',' dept_str.data).headD [])))
  let workPhone := stripS (rget r "Work phone number")
  let mobilePhone := stripS (rget r "Mobile nUmber")
  let companyPhone := stripS (rget r "Company Phone Number")
  let phone := if workPhone ≠ "" then some workPhone
               else if mobilePhone ≠ "" then some mobilePhone
               else if companyPhone ≠ "" then some companyPhone
               else none
  let email := orNone (stripS (rget r "Email"))
  let website := orNone (stripS (rget r "Website"))
  let company_name := orNone (stripS (rget r "Company Name"))
  { company_name := company_name
    name := orNone full_name
    title := title
    linkedin_id := linkedin_id
    location := location
    department := department
    size := size
    company_id := none
    seniority_level := infer_seniority_level title
    years_experience := none
    skills := some "[]"
    education := some "[]"
    profile_photo_url := none
    email_address := email
    phone_number := phone
    last_updated_at := some now
    confidence_score := some 75
    intent_signals := some "[]"
    company_funding_stage := none
    job_change_date := none
    technologies := some "[]"
    enrichment_status := some "\x7b\x7d"
    last_enriched_at := none
    work_email_enriched := email
    linkedin_url_enriched := orNone linkedin_url
    social_profiles_enriched := some "\x7b\x7d"
    person_highlights_enriched := none
    company_domain_enriched := website
    user_id := none
    created_at := some now
    updated_at := some now
    popularity_index := some "5.0" }

/-- `prepare_csv` (lines 222-253), restricted to its row transformation:
each input row is normalized, and rows without a name are skipped. -/
def prepare_csv (now : String) (rows : List Raw) : List PersonRow :=
  (rows.map (process_csv_row now)).filter (fun p => p.name.isSome)

/-! ## People upsert (people script, lines 256-370)

`ON CONFLICT (name, company_name, title) DO UPDATE SET updated_at =
EXCLUDED.updated_at, last_updated_at = EXCLUDED.last_updated_at`.

The unique index backing the conflict clause follows PostgreSQL's default
NULLS DISTINCT semantics: an incoming row conflicts with a stored row only
when all three key columns are non-null and pairwise equal.  The SQL
contains no COALESCE, although the comment above it (line 268) announces
one. -/

/-- Conflict test of the `(name, company_name, title)` unique index. -/
def personConflict (r v : PersonRow) : Bool :=
  r.name.isSome && r.company_name.isSome && r.title.isSome &&
  r.name == v.name && r.company_name == v.company_name && r.title == v.title

/-- The `DO UPDATE SET` assignment: only the two freshness timestamps are
overwritten from the excluded (incoming) row. -/
def applyConflictUpdate (r v : PersonRow) : PersonRow :=
  { r with updated_at := v.updated_at, last_updated_at := v.last_updated_at }

/-- Apply one incoming row to the table under the person conflict policy. -/
def upsertPersonOne (store : List PersonRow) (v : PersonRow) : List PersonRow :=
  if store.any (fun r => personConflict r v) then
    store.map (fun r => if personConflict r v then applyConflictUpdate r v else r)
  else
    store ++ [v]

/-- Apply a batch of incoming rows in order. -/
def upsertPersonBatch (store : List PersonRow) (batch : List PersonRow) : List PersonRow :=
  batch.foldl upsertPersonOne store

/-- Worker for `chunksOf`; fuel (instantiated with the list length) keeps
the recursion structural. -/
def chunksOfAux {α : Type} : Nat → Nat → List α → List (List α)
  | _, _, [] => []
  | 0, _, l => [l]
  | fuel + 1, bs, a :: rest =>
    if bs = 0 then [a :: rest]
    else (a :: rest).take bs :: chunksOfAux fuel bs ((a :: rest).drop bs)

/-- Partition a list into consecutive chunks of at most `bs` elements: the
batching loop of `insert_from_csv_fast` (flush at `batch_size`, then the
final partial batch) and the slicing loop of `insert_companies_batch`. -/
def chunksOf {α : Type} (bs : Nat) (l : List α) : List (List α) :=
  chunksOfAux l.length bs l

/-- The per-chunk insert loop of `insert_from_csv_fast` (lines 302-367).
`fail i = true` means the storage operation for chunk `i` raises.  The
single `try` block wraps the whole loop, and its handler rolls back the
uncommitted chunk and re-raises (lines 363-367), so a chunk failure stops
processing: the result is an error carrying the already-committed table
state and count, and later chunks are never attempted. -/
def runPersonChunks (fail : Nat → Bool) :
    Nat → List PersonRow → Nat → List (List PersonRow) →
    Except (List PersonRow × Nat) (List PersonRow × Nat)
  | _, store, total, [] => .ok (store, total)
  | i, store, total, b :: rest =>
    if fail i then .error (store, total)
    else runPersonChunks fail (i + 1) (upsertPersonBatch store b) (total + b.length) rest

/-- `insert_from_csv_fast` (lines 256-370) over already-prepared rows. -/
def insert_from_csv_fast (fail : Nat → Bool) (store : List PersonRow)
    (rows : List PersonRow) (batch_size : Nat) :
    Except (List PersonRow × Nat) (List PersonRow × Nat) :=
  runPersonChunks fail 0 store 0 (chunksOf batch_size rows)

/-! ## Company pipeline (`insert_company_with_csv.py`) -/

/-- The fixed owner identifier (line 15). -/
def USER_ID : String := "632d6b76-0d5a-4074-b7e8-552b2a2aeb3d"

/-- Python `int(float(s))` on an already-stripped, nonempty string:
optional sign, digits, optional fractional part; truncation toward zero.
Exponent notation and special values are not modelled (`ValueError`s and
unparsable shapes give `none`, as the script's handler does). -/
def parseUnsignedFloat (l : List Char) : Option Nat :=
  let ip := l.takeWhile Char.isDigit
  match l.drop ip.length with
  | [] => if ip.isEmpty then none else some (digitsToNat ip)
  | '.' :: frac =>
    if (ip.isEmpty && frac.isEmpty) || !frac.all Char.isDigit then none
    else some (digitsToNat ip)
  | _ => none

/-- Python `int(float(s))` with an optional leading minus sign. -/
def parseIntFloat (s : String) : Option Int :=
  match s.data with
  | '-' :: rest => (parseUnsignedFloat rest).map (fun n => -(n : Int))
  | l => (parseUnsignedFloat l).map (fun n => (n : Int))

/-- The company dictionary built by `read_enriched_csv` (lines 178-194):
every string attribute is the stripped cell text (an empty string when the
column is absent or blank); only `employee_count` is parsed, with blank or
unparsable cells becoming null. -/
structure CompanyRec where
  name : String
  domain : String
  linkedin_url : String
  headquarters : String
  location : String
  description : String
  primary_industry : String
  size : String
  revenue_range : String
  revenue_currency : String
  country : String
  company_type : String
  employee_count : Option Int
  revenue_usd_m : String
  write_idempotency_key : String
deriving DecidableEq

/-- The per-row body of `read_enriched_csv` (lines 167-195). -/
def read_enriched_row (r : Raw) : CompanyRec :=
  let ecs := stripS (rget r "employee_count")
  { name := stripS (rget r "name")
    domain := stripS (rget r "domain")
    linkedin_url := stripS (rget r "linkedin_url")
    headquarters := stripS (rget r "headquarters")
    location := stripS (rget r "location")
    description := stripS (rget r "description")
    primary_industry := stripS (rget r "primary_industry")
    size := stripS (rget r "size")
    revenue_range := stripS (rget r "revenue_range")
    revenue_currency := stripS ((r "revenue_currency").getD "USD")
    country := stripS (rget r "country")
    company_type := stripS (rget r "company_type")
    employee_count := if ecs ≠ "" then parseIntFloat ecs else none
    revenue_usd_m := stripS (rget r "revenue_usd_m")
    write_idempotency_key := stripS (rget r "write_idempotency_key") }

/-- `read_enriched_csv` (lines 157-208) over a list of raw rows: every row
produces a company dictionary; no row is rejected. -/
def read_enriched_csv (rows : List Raw) : List CompanyRec :=
  rows.map read_enriched_row

/-- One row of the `companies` table as targeted by the insert column list
of `_execute_batch_insert` (lines 133-145), the auto-generated `id` aside.
The float constant `FIXED_POPULARITY_INDEX = 5.0` is carried as its
literal text. -/
structure CompanyRow where
  user_id : String
  name : String
  domain : String
  linkedin_url : String
  headquarters : String
  location : String
  description : String
  primary_industry : String
  size : String
  revenue_range : String
  revenue_currency : String
  country : String
  company_type : String
  employee_count : Option Int
  created_at : String
  updated_at : String
  write_idempotency_key : String
  company_snapshot : Option String
  positive_news : Option String
  core_values : Option String
  gtm_strategy : Option String
  revenue_model : Option String
  enrichment_status : String
  key_people : Option String
  financials : Option String
  recent_news : Option String
  tech_stack : Option String
  contact_info : Option String
  social_media : Option String
  social_media_data : Option String
  latest_news_data : Option String
  competitive_research_data : Option String
  buyer_intent_data : Option String
  events_data : Option String
  popularity_index : String
deriving DecidableEq

/-- The 35 values of `companyValueCells` aligned to their evidently
intended columns — the SQL column list minus the auto-generated `id` —
i.e. the row the INSERT would produce if its target columns matched its
value tuples; also the shape of the rows assumed already present in the
table for the pre-check query. -/
def companyValues (now : String) (c : CompanyRec) : CompanyRow :=
  { user_id := USER_ID
    name := c.name
    domain := c.domain
    linkedin_url := c.linkedin_url
    headquarters := c.headquarters
    location := c.location
    description := c.description
    primary_industry := c.primary_industry
    size := c.size
    revenue_range := c.revenue_range
    revenue_currency := c.revenue_currency
    country := c.country
    company_type := c.company_type
    employee_count := c.employee_count
    created_at := now
    updated_at := now
    write_idempotency_key := c.write_idempotency_key
    company_snapshot := none
    positive_news := none
    core_values := none
    gtm_strategy := none
    revenue_model := none
    enrichment_status := "pending"
    key_people := none
    financials := none
    recent_news := none
    tech_stack := none
    contact_info := none
    social_media := none
    social_media_data := none
    latest_news_data := none
    competitive_research_data := none
    buyer_intent_data := none
    events_data := none
    popularity_index := "5.0" }

/-- A rendered SQL parameter cell: NULL, a text value, or an integer.
The float constant `FIXED_POPULARITY_INDEX = 5.0` is carried as its
literal text. -/
inductive SqlCell where
  | cellNull : SqlCell
  | cellStr : String → SqlCell
  | cellInt : Int → SqlCell
deriving DecidableEq

/-- The 36 target column names of the INSERT statement in
`_execute_batch_insert` (lines 134-142), verbatim — the auto-generated
`id` is listed first. -/
def companyInsertColumns : List String :=
  ["id", "user_id", "name", "domain", "linkedin_url", "headquarters", "location",
   "description", "primary_industry", "size", "revenue_range", "revenue_currency",
   "country", "company_type", "employee_count", "created_at", "updated_at",
   "write_idempotency_key", "company_snapshot", "positive_news", "core_values",
   "gtm_strategy", "revenue_model", "enrichment_status", "key_people", "financials",
   "recent_news", "tech_stack", "contact_info", "social_media", "social_media_data",
   "latest_news_data", "competitive_research_data", "buyer_intent_data", "events_data",
   "popularity_index"]

/-- The value tuple built for one company in `insert_companies_batch`
(lines 84-120), entry by entry: 35 cells, none of them for `id`. -/
def companyValueCells (now : String) (c : CompanyRec) : List SqlCell :=
  [SqlCell.cellStr USER_ID,
   SqlCell.cellStr c.name,
   SqlCell.cellStr c.domain,
   SqlCell.cellStr c.linkedin_url,
   SqlCell.cellStr c.headquarters,
   SqlCell.cellStr c.location,
   SqlCell.cellStr c.description,
   SqlCell.cellStr c.primary_industry,
   SqlCell.cellStr c.size,
   SqlCell.cellStr c.revenue_range,
   SqlCell.cellStr c.revenue_currency,
   SqlCell.cellStr c.country,
   SqlCell.cellStr c.company_type,
   (match c.employee_count with
    | some n => SqlCell.cellInt n
    | none => SqlCell.cellNull),
   SqlCell.cellStr now,
   SqlCell.cellStr now,
   SqlCell.cellStr c.write_idempotency_key,
   SqlCell.cellNull, SqlCell.cellNull, SqlCell.cellNull, SqlCell.cellNull,
   SqlCell.cellNull,
   SqlCell.cellStr "pending",
   SqlCell.cellNull, SqlCell.cellNull, SqlCell.cellNull, SqlCell.cellNull,
   SqlCell.cellNull, SqlCell.cellNull, SqlCell.cellNull, SqlCell.cellNull,
   SqlCell.cellNull, SqlCell.cellNull, SqlCell.cellNull,
   SqlCell.cellStr "5.0"]

/-- Conflict test of the `(user_id, name)` unique key declared by
`ON CONFLICT (user_id, name) DO NOTHING`: both columns are non-null
strings here, so the comparison is plain (case-sensitive) equality. -/
def companyConflict (r v : CompanyRow) : Bool :=
  r.user_id == v.user_id && r.name == v.name

/-- Apply one incoming row under `DO NOTHING`: a conflicting row is
silently dropped.  This is the conflict policy the INSERT statement
declares; in the program as written it is unreachable for nonempty
batches (see `execute_batch_insert`). -/
def upsertCompanyOne (store : List CompanyRow) (v : CompanyRow) : List CompanyRow :=
  if store.any (fun r => companyConflict r v) then store else store ++ [v]

/-- The declared `DO NOTHING` write over a whole value batch. -/
def upsertCompanyBatch (store : List CompanyRow) (batch : List CompanyRow) : List CompanyRow :=
  batch.foldl upsertCompanyOne store

/-- `_execute_batch_insert` (lines 131-154).  The INSERT names the 36
target columns of `companyInsertColumns` (`id` included) while every value
tuple carries only the 35 cells of `companyValueCells`, so PostgreSQL
rejects the statement (INSERT has more target columns than expressions)
and the call raises for every batch that builds a tuple; only if the
arities agreed would the `ON CONFLICT (user_id, name) DO NOTHING` write
be applied and committed. -/
def execute_batch_insert (now : String) (store : List CompanyRow)
    (batch : List CompanyRec) : Except String (List CompanyRow) :=
  if batch.all (fun c => (companyValueCells now c).length == companyInsertColumns.length) then
    .ok (upsertCompanyBatch store (batch.map (companyValues now)))
  else
    .error "INSERT has more target columns than expressions"

/-- The batch loop of `insert_companies_batch` (lines 79-128): each
batch's write is attempted inside its own `try`; a raising batch is only
logged, contributing nothing to the table or to `total_inserted`, and the
loop continues with the next batch. -/
def runCompanyBatches (now : String) :
    List CompanyRow → Nat → List (List CompanyRec) → List CompanyRow × Nat
  | store, total, [] => (store, total)
  | store, total, b :: rest =>
    match execute_batch_insert now store b with
    | .ok store2 => runCompanyBatches now store2 (total + b.length) rest
    | .error _ => runCompanyBatches now store total rest

/-- `insert_companies_batch` (lines 71-129): slice the company list into
batches and attempt them one by one. -/
def insert_companies_batch (now : String) (store : List CompanyRow)
    (companies : List CompanyRec) (batch_size : Nat) : List CompanyRow × Nat :=
  runCompanyBatches now store 0 (chunksOf batch_size companies)

/-- `company_exists` (lines 53-69): the pre-check query
`SELECT EXISTS(... WHERE user_id = %s AND LOWER(name) = LOWER(%s))`
against the modelled table. -/
def company_exists (store : List CompanyRow) (company_name : String) : Bool :=
  store.any (fun r => r.user_id == USER_ID && lowerS r.name == lowerS company_name)

/-- One entry of the skip report built by `process_companies`. -/
structure SkippedCompany where
  name : String
  reason : String
  country : String
deriving DecidableEq

/-- `process_companies` (lines 211-235): route each candidate company to
the skip set when the pre-check finds it, otherwise to the insert set. -/
def process_companies (store : List CompanyRow) :
    List CompanyRec → List CompanyRec × List SkippedCompany
  | [] => ([], [])
  | c :: rest =>
    let p := process_companies store rest
    if company_exists store c.name then
      (p.1, ⟨c.name, "Already exists in database", c.country⟩ :: p.2)
    else
      (c :: p.1, p.2)

/-- A person row with the given uniqueness-key fields and timestamp; the
remaining fields take the constants `process_csv_row` assigns when the
corresponding input cells are absent. -/
def mkPersonRow (nm co ti : Option String) (ts : String) : PersonRow :=
  { company_name := co
    name := nm
    title := ti
    linkedin_id := none
    location := none
    department := none
    size := none
    company_id := none
    seniority_level := infer_seniority_level ti
    years_experience := none
    skills := some "[]"
    education := some "[]"
    profile_photo_url := none
    email_address := none
    phone_number := none
    last_updated_at := some ts
    confidence_score := some 75
    intent_signals := some "[]"
    company_funding_stage := none
    job_change_date := none
    technologies := some "[]"
    enrichment_status := some "\x7b\x7d"
    last_enriched_at := none
    work_email_enriched := none
    linkedin_url_enriched := none
    social_profiles_enriched := some "\x7b\x7d"
    person_highlights_enriched := none
    company_domain_enriched := none
    user_id := none
    created_at := some ts
    updated_at := some ts
    popularity_index := some "5.0" }

/-- Raw row used as a concrete witness input: just a first and last name. -/
def sampleRaw : Raw := fun k =>
  if k = "First Name" then some "Jane"
  else if k = "Last Name" then some "Doe"
  else none

/-- Raw company row used as a concrete witness input. -/
def sampleCompanyRaw : Raw := fun k =>
  if k = "name" then some "Acme Corp" else none

/-- A person row with the timestamp columns cleared; two rows agree under
this map exactly when every column other than `updated_at` and
`last_updated_at` agrees. -/
def eraseTimestamps (r : PersonRow) : PersonRow :=
  { r with updated_at := none, last_updated_at := none }

/-! ## Supporting lemmas -/

theorem eraseTimestamps_applyConflictUpdate (r v : PersonRow) :
    eraseTimestamps (applyConflictUpdate r v) = eraseTimestamps r := by
  cases r
  rfl

theorem map_erase_conflict_update (store : List PersonRow) (v : PersonRow) :
    (store.map (fun r => if personConflict r v then applyConflictUpdate r v else r)).map
      eraseTimestamps = store.map eraseTimestamps := by
  induction store with
  | nil => rfl
  | cons r rest ih =>
    simp only [List.map_cons, List.cons.injEq]
    refine ⟨?_, ih⟩
    split
    · exact eraseTimestamps_applyConflictUpdate r v
    · rfl

theorem upsertPersonOne_frame (store : List PersonRow) (v : PersonRow) :
    store.length ≤ (upsertPersonOne store v).length ∧
    ((upsertPersonOne store v).take store.length).map eraseTimestamps =
      store.map eraseTimestamps := by
  unfold upsertPersonOne
  split
  · refine ⟨by simp, ?_⟩
    have h1 : store.length =
        (store.map (fun r => if personConflict r v then applyConflictUpdate r v else r)).length := by
      simp
    rw [h1, List.take_length]
    exact map_erase_conflict_update store v
  · exact ⟨by simp, by rw [List.take_left]⟩

theorem framePrefixTrans {a b c : List PersonRow}
    (hab : a.length ≤ b.length ∧ (b.take a.length).map eraseTimestamps = a.map eraseTimestamps)
    (hbc : b.length ≤ c.length ∧ (c.take b.length).map eraseTimestamps = b.map eraseTimestamps) :
    a.length ≤ c.length ∧ (c.take a.length).map eraseTimestamps = a.map eraseTimestamps := by
  obtain ⟨h1, h2⟩ := hab
  obtain ⟨h3, h4⟩ := hbc
  refine ⟨le_trans h1 h3, ?_⟩
  have hcut : c.take a.length = (c.take b.length).take a.length := by
    rw [List.take_take, Nat.min_eq_left h1]
  rw [hcut, List.map_take, h4, ← List.map_take, h2]

theorem upsertPersonBatch_frame (batch : List PersonRow) :
    ∀ store : List PersonRow,
      store.length ≤ (upsertPersonBatch store batch).length ∧
      ((upsertPersonBatch store batch).take store.length).map eraseTimestamps =
        store.map eraseTimestamps := by
  induction batch with
  | nil =>
    intro store
    exact ⟨le_refl _, by simp [upsertPersonBatch]⟩
  | cons v rest ih =>
    intro store
    have hstep : upsertPersonBatch store (v :: rest) =
        upsertPersonBatch (upsertPersonOne store v) rest := rfl
    rw [hstep]
    exact framePrefixTrans (upsertPersonOne_frame store v) (ih (upsertPersonOne store v))

theorem segAfterIn_not_mem {l : List String} (h : "in" ∉ l) : segAfterIn l = none := by
  induction l with
  | nil => rfl
  | cons p rest ih =>
    simp only [List.mem_cons, not_or] at h
    have hp : ¬(p = "in") := fun hp => h.1 hp.symm
    simp only [segAfterIn, if_neg hp]
    exact ih h.2

theorem segAfterIn_append {pre : List String} (rest : List String) (h : "in" ∉ pre) :
    segAfterIn (pre ++ "in" :: rest) = rest.head? := by
  induction pre with
  | nil => simp [segAfterIn]
  | cons p ps ih =>
    simp only [List.mem_cons, not_or] at h
    have hp : ¬(p = "in") := fun hp => h.1 hp.symm
    simp only [List.cons_append, segAfterIn, if_neg hp]
    exact ih h.2

theorem companyValueCells_length (now : String) (c : CompanyRec) :
    (companyValueCells now c).length = 35 := by
  rfl

theorem companyInsertColumns_length : companyInsertColumns.length = 36 := by
  rfl

theorem execute_batch_insert_error (now : String) (store : List CompanyRow)
    (batch : List CompanyRec) (hb : batch ≠ []) :
    execute_batch_insert now store batch =
      .error "INSERT has more target columns than expressions" := by
  obtain ⟨c, rest, rfl⟩ := List.exists_cons_of_ne_nil hb
  have hfalse : ((c :: rest).all
      (fun c => (companyValueCells now c).length == companyInsertColumns.length)) = false := by
    simp [List.all_cons, companyValueCells_length, companyInsertColumns_length]
  unfold execute_batch_insert
  rw [hfalse]
  rfl

theorem chunksOfAux_ne_nil {α : Type} :
    ∀ (fuel bs : Nat) (l c : List α), c ∈ chunksOfAux fuel bs l → c ≠ [] := by
  intro fuel
  induction fuel with
  | zero =>
    intro bs l c hc
    cases l with
    | nil => simp [chunksOfAux] at hc
    | cons a rest =>
      simp only [chunksOfAux, List.mem_singleton] at hc
      subst hc
      simp
  | succ fuel ih =>
    intro bs l c hc
    cases l with
    | nil => simp [chunksOfAux] at hc
    | cons a rest =>
      by_cases hbs : bs = 0
      · simp only [chunksOfAux, if_pos hbs, List.mem_singleton] at hc
        subst hc
        simp
      · simp only [chunksOfAux, if_neg hbs, List.mem_cons] at hc
        rcases hc with hc | hc
        · subst hc
          cases bs with
          | zero => exact absurd rfl hbs
          | succ bs2 => simp
        · exact ih bs _ c hc

theorem chunksOf_ne_nil {α : Type} (bs : Nat) (l : List α) :
    ∀ c ∈ chunksOf bs l, c ≠ [] :=
  fun c hc => chunksOfAux_ne_nil l.length bs l c hc

theorem runCompanyBatches_all_error (now : String) :
    ∀ (bl : List (List CompanyRec)) (store : List CompanyRow) (total : Nat),
      (∀ b ∈ bl, b ≠ []) →
      runCompanyBatches now store total bl = (store, total) := by
  intro bl
  induction bl with
  | nil =>
    intro store total _
    rfl
  | cons b rest ih =>
    intro store total h
    have hb : b ≠ [] := h b (List.mem_cons_self b rest)
    simp only [runCompanyBatches, execute_batch_insert_error now store b hb]
    exact ih store total (fun x hx => h x (List.mem_cons_of_mem b hx))

/-! ## Claims -/

/-- Claim C1 (code bug, evaluation at the failing input): re-running the
person batch upsert on a record whose `title` key component is null
inserts a duplicate row, because the unique index behind
`ON CONFLICT (name, company_name, title)` treats NULL as distinct and the
SQL carries no COALESCE despite the comment announcing one; with all key
components non-null the re-run is absorbed, as the claim states for every
record. -/
theorem person_rerun_null_key_duplicates :
    insert_from_csv_fast (fun _ => false) []
        [mkPersonRow (some "Jane Doe") (some "Acme") none "t1"] 1000 =
      .ok ([mkPersonRow (some "Jane Doe") (some "Acme") none "t1"], 1) ∧
    insert_from_csv_fast (fun _ => false)
        [mkPersonRow (some "Jane Doe") (some "Acme") none "t1"]
        [mkPersonRow (some "Jane Doe") (some "Acme") none "t1"] 1000 =
      .ok ([mkPersonRow (some "Jane Doe") (some "Acme") none "t1",
            mkPersonRow (some "Jane Doe") (some "Acme") none "t1"], 1) ∧
    insert_from_csv_fast (fun _ => false)
        [mkPersonRow (some "Jane Doe") (some "Acme") (some "CTO") "t1"]
        [mkPersonRow (some "Jane Doe") (some "Acme") (some "CTO") "t1"] 1000 =
      .ok ([mkPersonRow (some "Jane Doe") (some "Acme") (some "CTO") "t1"], 1) :=
  ⟨by decide, by decide, by decide⟩

/-- Claim C2 counterexample: two single-record chunks, storage failing only
on chunk 0.  The person insert loop aborts the whole run with the error
instead of continuing, so the record of the different, non-failing chunk 1
is never committed; a failure-free run commits both. -/
theorem person_loop_abort_counterexample :
    insert_from_csv_fast (fun n => n == 0) []
        [mkPersonRow (some "A") none none "t1", mkPersonRow (some "B") none none "t1"] 1 =
      .error ([], 0) ∧
    insert_from_csv_fast (fun _ => false) []
        [mkPersonRow (some "A") none none "t1", mkPersonRow (some "B") none none "t1"] 1 =
      .ok ([mkPersonRow (some "A") none none "t1", mkPersonRow (some "B") none none "t1"], 2) :=
  ⟨by decide, by decide⟩

/-- Claim C2, amended: the company insert loop's failure handling is
per-batch — a batch whose write raises leaves the table and the inserted
count unchanged and processing continues with the next batch, never
aborting the run — but in the program as written every nonempty batch's
write raises, because the INSERT names 36 target columns (`id` included)
while each value tuple carries 35 values, so every company batch fails
and the loop always returns the table unchanged with zero inserted.  The
person insert loop has no chunk isolation: its single `try` block
re-raises, so the first failing chunk ends the run with only the
previously committed chunks applied. -/
theorem chunk_isolation_amended :
    (∀ (now : String) (store : List CompanyRow) (total : Nat)
        (b : List CompanyRec) (rest : List (List CompanyRec)) (e : String),
        execute_batch_insert now store b = .error e →
        runCompanyBatches now store total (b :: rest) =
          runCompanyBatches now store total rest) ∧
    (∀ (now : String) (store : List CompanyRow) (b : List CompanyRec),
        b ≠ [] →
        execute_batch_insert now store b =
          .error "INSERT has more target columns than expressions") ∧
    (∀ (now : String) (store : List CompanyRow) (companies : List CompanyRec)
        (batch_size : Nat),
        insert_companies_batch now store companies batch_size = (store, 0)) ∧
    (∀ (fail : Nat → Bool) (i : Nat) (store : List PersonRow) (total : Nat)
        (b : List PersonRow) (rest : List (List PersonRow)),
        fail i = true →
        runPersonChunks fail i store total (b :: rest) = .error (store, total)) := by
  refine ⟨?_, ?_, ?_, ?_⟩
  · intro now store total b rest e he
    simp only [runCompanyBatches, he]
  · intro now store b hb
    exact execute_batch_insert_error now store b hb
  · intro now store companies batch_size
    unfold insert_companies_batch
    exact runCompanyBatches_all_error now _ store 0 (chunksOf_ne_nil batch_size companies)
  · intro fail i store total b rest h
    simp [runPersonChunks, h]

/-- Witness for the amended C2 theorem: a concrete failing company batch
is skipped and the loop continues; the batch's write errors on the
column/value arity mismatch; and a concrete failing person chunk aborts
the person run. -/
theorem chunk_isolation_amended_witness :
    runCompanyBatches "t" [] 0 [[read_enriched_row emptyRaw]] =
      runCompanyBatches "t" [] 0 [] ∧
    execute_batch_insert "t" [] [read_enriched_row emptyRaw] =
      .error "INSERT has more target columns than expressions" ∧
    runPersonChunks (fun _ => true) 0 [] 0 [[mkPersonRow (some "A") none none "t1"]] =
      .error ([], 0) :=
  ⟨chunk_isolation_amended.1 "t" [] 0 [read_enriched_row emptyRaw] []
      "INSERT has more target columns than expressions" (by decide),
    chunk_isolation_amended.2.1 "t" [] [read_enriched_row emptyRaw] (by decide),
    chunk_isolation_amended.2.2.2 (fun _ => true) 0 [] 0 _ _ rfl⟩

/-- Claim C3 counterexample: the text-fallback path does not bucket by the
numeric path's thresholds.  For the extracted integer 10000, the fallback
yields the top bucket while the numeric path yields the 5,001-10,000
bucket. -/
theorem fallback_threshold_counterexample :
    normalize_size "" "about 10000 staff" = some "10,001+ employees" ∧
    normalize_size "10000" "" = some "5,001-10,000 employees" ∧
    fallbackBucket 10000 ≠ numericBucket 10000 :=
  ⟨by decide, by decide, by decide⟩

/-- Claim C3, amended: when the canonical-form lookup fails and the free
text contains an integer, `normalize_size` buckets the first extracted
integer with thresholds 10000, 5000, 1000, 500, 200, 50 and 10 — each one
below the numeric path's threshold — so the two paths agree on every
integer except the seven boundary counts 10, 50, 200, 500, 1000, 5000 and
10000, where the fallback assigns the next higher bucket. -/
theorem fallback_bucketing_amended :
    (∀ (ecs ess : String) (ds : List Char),
        numericTaken ecs = false →
        sizeMapping.lookup (cleanSizeOf ess) = none →
        firstDigitRun (sizeStrOf ess) = some ds →
        normalize_size ecs ess = some (fallbackBucket (digitsToNat ds))) ∧
    (∀ n : Nat, n ∉ ([10, 50, 200, 500, 1000, 5000, 10000] : List Nat) →
        fallbackBucket n = numericBucket n) := by
  constructor
  · intro ecs ess ds h1 h2 h3
    have hess : ess ≠ "" := by
      intro he
      rw [he] at h3
      simp [sizeStrOf, firstDigitRun] at h3
    have hne : ¬(ecs = "" ∧ ess = "") := fun h => hess h.2
    simp only [normalize_size, if_neg hne, h1, Bool.false_eq_true, if_false, h2, h3]
  · intro n hn
    simp only [List.mem_cons, List.not_mem_nil, or_false, not_or] at hn
    obtain ⟨e1, e2, e3, e4, e5, e6, e7⟩ := hn
    have c1 : (n ≥ 10000) = (n ≥ 10001) := propext (by omega)
    have c2 : (n ≥ 5000) = (n ≥ 5001) := propext (by omega)
    have c3 : (n ≥ 1000) = (n ≥ 1001) := propext (by omega)
    have c4 : (n ≥ 500) = (n ≥ 501) := propext (by omega)
    have c5 : (n ≥ 200) = (n ≥ 201) := propext (by omega)
    have c6 : (n ≥ 50) = (n ≥ 51) := propext (by omega)
    have c7 : (n ≥ 10) = (n ≥ 11) := propext (by omega)
    simp only [fallbackBucket, numericBucket, c1, c2, c3, c4, c5, c6, c7]

/-- Witness for the amended C3 theorem: descriptor with extracted integer
70, off the boundary set, bucketed identically by both paths. -/
theorem fallback_bucketing_amended_witness :
    normalize_size "" "around 70 people" = some (fallbackBucket (digitsToNat ("70".data))) ∧
    fallbackBucket 70 = numericBucket 70 :=
  ⟨fallback_bucketing_amended.1 "" "around 70 people" ("70".data)
      (by decide) (by decide) (by decide),
    fallback_bucketing_amended.2 70 (by decide)⟩

/-- Claim C4 counterexample: for a raw company row with every column
absent, the company CSV reader represents the optional `domain` and
`headquarters` attributes as empty strings, not nulls, and the empty
string is what reaches the insert value tuple. -/
theorem company_reader_empty_string_counterexample :
    (read_enriched_row emptyRaw).domain = "" ∧
    (read_enriched_row emptyRaw).headquarters = "" ∧
    (companyValues "t" (read_enriched_row emptyRaw)).domain = "" :=
  ⟨by decide, by decide, by decide⟩

/-- Claim C4, amended: in the person normalizer every optional
input-derived attribute that is absent or empty in the raw row becomes
null in the canonical record, never an empty string; the company CSV
reader instead represents absent or empty optional string attributes as
empty strings (only the parsed `employee_count` becomes null). -/
theorem null_defaults_amended :
    (∀ (now : String) (r : Raw),
      (stripS (rget r "Title") = "" →
        (process_csv_row now r).title = none ∧
        (process_csv_row now r).seniority_level = none) ∧
      (stripS (rget r "Email") = "" →
        (process_csv_row now r).email_address = none ∧
        (process_csv_row now r).work_email_enriched = none) ∧
      (stripS (rget r "Company Name") = "" → (process_csv_row now r).company_name = none) ∧
      (stripS (rget r "Departments") = "" → (process_csv_row now r).department = none) ∧
      (stripS (rget r "Website") = "" → (process_csv_row now r).company_domain_enriched = none) ∧
      (stripS (rget r "Person Linkedin Url") = "" →
        (process_csv_row now r).linkedin_id = none ∧
        (process_csv_row now r).linkedin_url_enriched = none) ∧
      (stripS (rget r "City") = "" → stripS (rget r "State") = "" →
        stripS (rget r "Country") = "" → (process_csv_row now r).location = none) ∧
      (stripS (rget r "Work phone number") = "" → stripS (rget r "Mobile nUmber") = "" →
        stripS (rget r "Company Phone Number") = "" →
        (process_csv_row now r).phone_number = none) ∧
      (rget r "# Employees" = "" → rget r "Employee size" = "" →
        (process_csv_row now r).size = none)) ∧
    (∀ r : Raw,
      (stripS (rget r "domain") = "" → (read_enriched_row r).domain = "") ∧
      (stripS (rget r "employee_count") = "" → (read_enriched_row r).employee_count = none)) := by
  constructor
  · intro now r
    refine ⟨?_, ?_, ?_, ?_, ?_, ?_, ?_, ?_, ?_⟩
    · intro h
      constructor <;> simp [process_csv_row, h, orNone, infer_seniority_level]
    · intro h
      constructor <;> simp [process_csv_row, h, orNone]
    · intro h
      simp [process_csv_row, h, orNone]
    · intro h
      simp [process_csv_row, h]
    · intro h
      simp [process_csv_row, h, orNone]
    · intro h
      constructor <;> simp [process_csv_row, h, orNone, extractLinkedinId]
    · intro h1 h2 h3
      simp [process_csv_row, h1, h2, h3]
    · intro h1 h2 h3
      simp [process_csv_row, h1, h2, h3]
    · intro h1 h2
      simp [process_csv_row, h1, h2, normalize_size]
  · intro r
    constructor
    · intro h
      simp [read_enriched_row, h]
    · intro h
      simp [read_enriched_row, h]

/-- Witness for the amended C4 theorem at the all-absent raw row. -/
theorem null_defaults_amended_witness :
    (process_csv_row "t" emptyRaw).title = none ∧
    (process_csv_row "t" emptyRaw).phone_number = none ∧
    (read_enriched_row emptyRaw).employee_count = none :=
  ⟨((null_defaults_amended.1 "t" emptyRaw).1 (by decide)).1,
    (null_defaults_amended.1 "t" emptyRaw).2.2.2.2.2.2.2.1 (by decide) (by decide) (by decide),
    (null_defaults_amended.2 emptyRaw).2 (by decide)⟩

/-- Claim C5 counterexample: a raw company row with no name at all is not
rejected anywhere — the reader produces a record whose identity attribute
is the empty string, the pre-check partition routes it into the to-insert
set, and batching builds a value tuple and a chunk containing it, so the
empty-named canonical record reaches batching, contradicting the claimed
exclusion.  (It reaches no storage, but only because every company batch
write fails on the 36-column/35-value arity mismatch.) -/
theorem empty_name_company_reaches_batching_counterexample :
    read_enriched_csv [emptyRaw] = [read_enriched_row emptyRaw] ∧
    (read_enriched_row emptyRaw).name = "" ∧
    (process_companies [] (read_enriched_csv [emptyRaw])).1 = [read_enriched_row emptyRaw] ∧
    chunksOf 100 (process_companies [] (read_enriched_csv [emptyRaw])).1 =
      [[read_enriched_row emptyRaw]] ∧
    (companyValueCells "t" (read_enriched_row emptyRaw)).get? 1 =
      some (SqlCell.cellStr "") :=
  ⟨rfl, by decide, by decide, by decide, by decide⟩

/-- Claim C5, amended: the people pipeline rejects every record whose full
name is missing or empty before batching (every prepared record carries a
non-null name), but the company reader excludes nothing: it produces one
company dictionary per raw row, empty name or not. -/
theorem identity_rejection_amended :
    (∀ (now : String) (rows : List Raw) (p : PersonRow),
        p ∈ prepare_csv now rows → p.name ≠ none) ∧
    (∀ rows : List Raw, (read_enriched_csv rows).length = rows.length) := by
  constructor
  · intro now rows p hp
    have hs : p.name.isSome = true := (List.mem_filter.mp hp).2
    intro hn
    rw [hn] at hs
    cases hs
  · intro rows
    simp [read_enriched_csv]

/-- Witness for the amended C5 theorem: a prepared row with a name is kept
and its name is non-null. -/
theorem identity_rejection_amended_witness :
    (process_csv_row "t" sampleRaw).name ≠ none :=
  identity_rejection_amended.1 "t" [sampleRaw] (process_csv_row "t" sampleRaw) (by decide)

/-- Claim C6 (code bug, evaluation at the failing input): the keyword sets
are checked in the claimed priority order by substring matching, but the
claimed consequence fails: every title containing the word
Director also contains the C-Suite keyword cto as a substring
(direCTOr), so a title with both Director and Manager keywords classifies
as C-Suite, not Director — including the spec's own example title.  Null
and empty titles do yield a null classification. -/
theorem seniority_csuite_substring_bug :
    containsSub ("cto".data) (lowerL ("Director".data)) = true ∧
    containsAny (lowerL ("Director and Manager of Operations".data)) directorKeywords = true ∧
    containsSub ("manager".data) (lowerL ("Director and Manager of Operations".data)) = true ∧
    infer_seniority_level (some "Director and Manager of Operations") = some "C-Suite" ∧
    infer_seniority_level (some "Senior Director of Sales") = some "C-Suite" ∧
    infer_seniority_level none = none ∧
    infer_seniority_level (some "") = none :=
  ⟨by decide, by decide, by decide, by decide, by decide, rfl, rfl⟩

/-- Claim C7: on a uniqueness-key collision the person upsert rewrites
only the two freshness timestamps of the stored row, taking them from the
incoming row; under `eraseTimestamps` (which blanks exactly those two
columns) the stored prefix of the table is unchanged by any batch, so
every other column of every existing row, enrichment fields included, is
preserved. -/
theorem person_conflict_frame :
    (∀ (store batch : List PersonRow),
        store.length ≤ (upsertPersonBatch store batch).length ∧
        ((upsertPersonBatch store batch).take store.length).map eraseTimestamps =
          store.map eraseTimestamps) ∧
    (∀ r v : PersonRow,
        (applyConflictUpdate r v).updated_at = v.updated_at ∧
        (applyConflictUpdate r v).last_updated_at = v.last_updated_at ∧
        eraseTimestamps (applyConflictUpdate r v) = eraseTimestamps r) := by
  constructor
  · intro store batch
    exact upsertPersonBatch_frame batch store
  · intro r v
    exact ⟨rfl, rfl, eraseTimestamps_applyConflictUpdate r v⟩

/-- The bucket index chosen by the numeric path, as a number. -/
def rankNum (n : Nat) : Nat :=
  if n ≥ 10001 then 7 else if n ≥ 5001 then 6 else if n ≥ 1001 then 5
  else if n ≥ 501 then 4 else if n ≥ 201 then 3 else if n ≥ 51 then 2
  else if n ≥ 11 then 1 else 0

theorem bucketRank_numericBucket (n : Nat) : bucketRank (numericBucket n) = rankNum n := by
  unfold numericBucket rankNum
  split_ifs <;> decide

theorem rankNum_eq_sum (n : Nat) : rankNum n =
    (if n ≥ 11 then 1 else 0) + (if n ≥ 51 then 1 else 0) + (if n ≥ 201 then 1 else 0) +
    (if n ≥ 501 then 1 else 0) + (if n ≥ 1001 then 1 else 0) + (if n ≥ 5001 then 1 else 0) +
    (if n ≥ 10001 then 1 else 0) := by
  unfold rankNum
  split_ifs <;> omega

theorem indicator_mono (m n t : Nat) (h : m ≤ n) :
    (if m ≥ t then (1 : Nat) else 0) ≤ (if n ≥ t then 1 else 0) := by
  split_ifs <;> omega

theorem rankNum_mono (m n : Nat) (h : m ≤ n) : rankNum m ≤ rankNum n := by
  rw [rankNum_eq_sum, rankNum_eq_sum]
  have i1 := indicator_mono m n 11 h
  have i2 := indicator_mono m n 51 h
  have i3 := indicator_mono m n 201 h
  have i4 := indicator_mono m n 501 h
  have i5 := indicator_mono m n 1001 h
  have i6 := indicator_mono m n 5001 h
  have i7 := indicator_mono m n 10001 h
  omega

/-- Claim C8: whenever the numeric path is taken, `normalize_size` returns
the numeric bucket of the parsed count, and that bucketing is monotone:
a larger count never lands in a lower-ranked bucket under the ascending
order of the eight canonical labels. -/
theorem size_bucket_rank_monotone :
    (∀ ecs ess : String, numericTaken ecs = true →
        normalize_size ecs ess = some (numericBucket (digitsToNat (countClean ecs)))) ∧
    (∀ m n : Nat, m ≤ n →
        bucketRank (numericBucket m) ≤ bucketRank (numericBucket n)) := by
  constructor
  · intro ecs ess h
    have hecs : ecs ≠ "" := by
      intro he
      rw [he] at h
      have : numericTaken "" = false := by decide
      rw [this] at h
      cases h
    have hne : ¬(ecs = "" ∧ ess = "") := fun hh => hecs hh.1
    simp only [normalize_size, if_neg hne, h, if_true]
  · intro m n hmn
    rw [bucketRank_numericBucket, bucketRank_numericBucket]
    exact rankNum_mono m n hmn

/-- Witness for C8 at count string "1,500" and the pair 5 ≤ 100. -/
theorem size_bucket_rank_monotone_witness :
    normalize_size "1,500" "" = some (numericBucket (digitsToNat (countClean "1,500"))) ∧
    bucketRank (numericBucket 5) ≤ bucketRank (numericBucket 100) :=
  ⟨size_bucket_rank_monotone.1 "1,500" "" (by decide),
    size_bucket_rank_monotone.2 5 100 (by decide)⟩

/-- Claim C9: the extracted LinkedIn id is the path segment immediately
following the first marker segment `in` of the slash-split,
trailing-slash-stripped URL, and it is null when the marker is absent or
is the last segment (`List.head?` of the suffix covers both the following
segment and the marker-last case); `process_csv_row` applies exactly this
extraction to the stripped profile URL. -/
theorem linkedin_id_extraction :
    (∀ (url : String) (pre rest : List String) (nxt : String),
        linkedinParts url = pre ++ "in" :: nxt :: rest → "in" ∉ pre →
        extractLinkedinId url = some nxt) ∧
    (∀ url : String, "in" ∉ linkedinParts url → extractLinkedinId url = none) ∧
    (∀ (url : String) (pre : List String),
        linkedinParts url = pre ++ ["in"] → "in" ∉ pre →
        extractLinkedinId url = none) ∧
    (∀ (now : String) (r : Raw),
        (process_csv_row now r).linkedin_id =
          extractLinkedinId (stripS (rget r "Person Linkedin Url"))) := by
  refine ⟨?_, ?_, ?_, ?_⟩
  · intro url pre rest nxt hparts hpre
    by_cases hu : url = ""
    · rw [hu] at hparts
      have : ("in" : String) ∈ linkedinParts "" := by
        rw [hparts]
        simp
      simp [linkedinParts, rstripSlash, splitCharList] at this
    · unfold extractLinkedinId
      rw [if_neg hu, hparts, segAfterIn_append _ hpre]
      rfl
  · intro url hin
    unfold extractLinkedinId
    by_cases hu : url = ""
    · rw [if_pos hu]
    · rw [if_neg hu]
      exact segAfterIn_not_mem hin
  · intro url pre hparts hpre
    by_cases hu : url = ""
    · unfold extractLinkedinId
      rw [if_pos hu]
    · unfold extractLinkedinId
      rw [if_neg hu, hparts, segAfterIn_append _ hpre]
      rfl
  · intro now r
    simp [process_csv_row]

/-- Witness for C9 at a concrete profile URL with a trailing slash. -/
theorem linkedin_id_extraction_witness :
    extractLinkedinId "https://www.linkedin.com/in/jane-doe/" = some "jane-doe" :=
  linkedin_id_extraction.1 "https://www.linkedin.com/in/jane-doe/"
    ["https:", "", "www.linkedin.com"] [] "jane-doe" (by decide) (by decide)

/-- Claim C10: the pre-check routes a candidate to the skip set exactly
when the table holds a row for the fixed owner whose name matches up to
letter case (`LOWER` on both sides), so names differing only in case are
treated as the same company — while the bulk-insert conflict key
`(user_id, name)` compares names exactly, so such a pair does not
conflict there. -/
theorem precheck_case_insensitive :
    (∀ (store : List CompanyRow) (comps : List CompanyRec),
        (process_companies store comps).1 =
          comps.filter (fun c => !company_exists store c.name) ∧
        (process_companies store comps).2 =
          (comps.filter (fun c => company_exists store c.name)).map
            (fun c => ⟨c.name, "Already exists in database", c.country⟩)) ∧
    (∀ (store : List CompanyRow) (nm : String),
        company_exists store nm = true ↔
          ∃ r ∈ store, r.user_id = USER_ID ∧ lowerS r.name = lowerS nm) ∧
    (∀ (store : List CompanyRow) (a b : String),
        lowerS a = lowerS b → company_exists store a = company_exists store b) ∧
    (∀ r v : CompanyRow, companyConflict r v = true ↔
        r.user_id = v.user_id ∧ r.name = v.name) ∧
    (∀ r v : CompanyRow, r.name ≠ v.name → companyConflict r v = false) := by
  refine ⟨?_, ?_, ?_, ?_, ?_⟩
  · intro store comps
    induction comps with
    | nil => exact ⟨rfl, rfl⟩
    | cons c rest ih =>
      by_cases h : company_exists store c.name
      · constructor
        · simp [process_companies, h, List.filter, ih.1]
        · simp [process_companies, h, List.filter, ih.2]
      · constructor
        · simp [process_companies, h, List.filter, ih.1]
        · simp [process_companies, h, List.filter, ih.2]
  · intro store nm
    simp [company_exists, List.any_eq_true, Bool.and_eq_true, beq_iff_eq]
  · intro store a b h
    unfold company_exists
    rw [h]
  · intro r v
    simp [companyConflict, Bool.and_eq_true, beq_iff_eq]
  · intro r v h
    have hb : (r.name == v.name) = false := beq_eq_false_iff_ne.mpr h
    simp [companyConflict, hb]

/-- Witness for C10: two case-variants of one stored name give the same
pre-check answer. -/
theorem precheck_case_insensitive_witness :
    company_exists [companyValues "t" (read_enriched_row sampleCompanyRaw)] "ACME CORP" =
      company_exists [companyValues "t" (read_enriched_row sampleCompanyRaw)] "acme corp" :=
  precheck_case_insensitive.2.2.1 _ "ACME CORP" "acme corp" (by decide)

end InsertData
